import Mathlib

/-!
Shallow embedding of `src/robot_workcell.py`, a robot workcell simulator:
a single robot arm transfers plates between named devices, each operation
validating device/robot state; a workcell orchestrates transfers with an
append-only protocol log and runs a fixed screening protocol.

Modelling conventions:
- Python in-place mutation becomes explicit state passing.
- `raise Exception(...)` becomes `Except WorkcellError _`; each constructor
  of `WorkcellError` corresponds to one distinct `raise` site (the source
  raises before any mutation at every site, so an error result with no new
  state is faithful).
- Dictionary lookups that may raise `KeyError` are modelled by
  `Option`/`Except String` carrying the missing key.
- `time.sleep`, `print`, and timestamps have no state effect and are dropped;
  a log entry therefore omits the `timestamp` field.
- Plate ids are strings; fields that Python can set to `None` are `Option`s.
-/

deriving instance DecidableEq for Except

/-- 3D position in workcell (x, y, z in mm), with a display name.
Source: class `Position`. Coordinates are integers in every construction
site of the program; `distance_to` only feeds print/sleep and is not part
of the state transition, so it is not modelled. -/
structure Position where
  x : Int
  y : Int
  z : Int
  pname : String
deriving DecidableEq, Repr

/-- A workcell device: name, fixed position, status string
(one of "idle", "loaded", "processing", "complete" in the source),
and plate custody fields `has_plate` / `plate_id`.
Source: class `WorkcellDevice.__init__`. -/
structure WorkcellDevice where
  name : String
  position : Position
  status : String
  has_plate : Bool
  plate_id : Option String
deriving DecidableEq, Repr

/-- Errors raised by the simulator; one constructor per distinct `raise`
site family, carrying the identifiers the Python message interpolates.
`emptyDevice` covers the `unload_plate`, `process` and `pick_plate`
"no plate" checks; `alreadyLoaded` covers `load_plate` and `place_plate`
"already has plate" checks; the gripper errors are `pick_plate`'s and
`place_plate`'s own-state checks. -/
inductive WorkcellError where
  | alreadyLoaded (deviceName : String) (plateId : Option String)
  | emptyDevice (deviceName : String)
  | gripperOccupied (robotName : String) (plateId : Option String)
  | gripperEmpty (robotName : String)
deriving DecidableEq, Repr

/-- `WorkcellDevice.load_plate`: fails when a plate is already present,
otherwise records the plate and moves to status "loaded".
The argument is an `Option` because Python would accept (and store) `None`. -/
def WorkcellDevice.load_plate (d : WorkcellDevice) (plate_id : Option String) :
    Except WorkcellError WorkcellDevice :=
  if d.has_plate then
    .error (.alreadyLoaded d.name d.plate_id)
  else
    .ok { d with has_plate := true, plate_id := plate_id, status := "loaded" }

/-- `WorkcellDevice.unload_plate`: fails when no plate is present, otherwise
returns the held plate id and clears custody, status back to "idle". -/
def WorkcellDevice.unload_plate (d : WorkcellDevice) :
    Except WorkcellError (Option String × WorkcellDevice) :=
  if !d.has_plate then
    .error (.emptyDevice d.name)
  else
    .ok (d.plate_id, { d with has_plate := false, plate_id := none, status := "idle" })

/-- `WorkcellDevice.process`: fails when no plate is present; otherwise the
status passes through "processing" (a sleep with no other state effect) and
ends at "complete". `duration` is an advisory dwell time with no state
effect. -/
def WorkcellDevice.process (d : WorkcellDevice) (duration : Nat) :
    Except WorkcellError WorkcellDevice :=
  if !d.has_plate then
    .error (.emptyDevice d.name)
  else
    .ok { d with status := "complete" }

/-- The robot arm: current position, plate custody, speed (unused by the
state transition beyond printing) and a movement counter.
Source: class `RobotArm.__init__`. -/
structure RobotArm where
  name : String
  current_position : Position
  has_plate : Bool
  plate_id : Option String
  speed : Nat
  moves_count : Nat
deriving DecidableEq, Repr

/-- The robot as constructed by `RobotArm()` with default name. -/
def RobotArm.init : RobotArm :=
  { name := "RobotArm", current_position := ⟨0, 0, 0, "Home"⟩,
    has_plate := false, plate_id := none, speed := 100, moves_count := 0 }

/-- `RobotArm.move_to`: always succeeds; updates the current position and
increments the move counter (distance/travel time only feed print/sleep). -/
def RobotArm.move_to (r : RobotArm) (target : Position) : RobotArm :=
  { r with current_position := target, moves_count := r.moves_count + 1 }

/-- `RobotArm.pick_plate`: fails if the gripper is occupied or the device is
empty; otherwise moves to the device, unloads it, and sets the robot's held
plate to the caller-supplied `plate_id` argument — the id returned by
`unload_plate` is discarded, exactly as in the source
(`device.unload_plate()` on its own line, then `self.plate_id = plate_id`). -/
def RobotArm.pick_plate (r : RobotArm) (device : WorkcellDevice) (plate_id : String) :
    Except WorkcellError (RobotArm × WorkcellDevice) :=
  if r.has_plate then
    .error (.gripperOccupied r.name r.plate_id)
  else if !device.has_plate then
    .error (.emptyDevice device.name)
  else
    let r1 := r.move_to device.position
    match device.unload_plate with
    | .error e => .error e
    | .ok (_, d1) =>
        .ok ({ r1 with has_plate := true, plate_id := some plate_id }, d1)

/-- `RobotArm.place_plate`: fails if the gripper is empty or the device is
occupied; otherwise moves to the device, loads the robot's held plate into
it, and clears the gripper. -/
def RobotArm.place_plate (r : RobotArm) (device : WorkcellDevice) :
    Except WorkcellError (RobotArm × WorkcellDevice) :=
  if !r.has_plate then
    .error (.gripperEmpty r.name)
  else if device.has_plate then
    .error (.alreadyLoaded device.name device.plate_id)
  else
    let r1 := r.move_to device.position
    match device.load_plate r1.plate_id with
    | .error e => .error e
    | .ok d1 =>
        .ok ({ r1 with has_plate := false, plate_id := none }, d1)

/-- `RobotArm.return_home`: move to the origin position labelled "Home". -/
def RobotArm.return_home (r : RobotArm) : RobotArm :=
  r.move_to ⟨0, 0, 0, "Home"⟩

/-- One record of `Workcell.protocol_log`. The source stores a timestamp
string, the plate id, source and destination names, a status of "success"
or "failed", and on failure the error text `str(e)`; the timestamp has no
state semantics and is omitted, and the error detail is kept as the
structured error value. -/
structure TransferLogEntry where
  plate_id : String
  src : String
  dst : String
  status : String
  error : Option WorkcellError
deriving DecidableEq, Repr

/-- The workcell: one robot, a name-keyed device mapping (a Python dict,
modelled as an association list where lookup takes the first match and
`add_device` prepends, so a later registration shadows an earlier one with
the same name, matching dict assignment), and the append-only protocol log.
Source: class `Workcell.__init__` (the `start_time` field only feeds the
printed duration and is dropped). -/
structure Workcell where
  name : String
  robot : RobotArm
  devices : List (String × WorkcellDevice)
  protocol_log : List TransferLogEntry
deriving DecidableEq, Repr

/-- A fresh workcell as built by `Workcell(name)`. -/
def Workcell.init (name : String) : Workcell :=
  { name := name, robot := RobotArm.init, devices := [], protocol_log := [] }

/-- `Workcell.add_device`: registers a device under its own name
(`self.devices[device.name] = device`). -/
def Workcell.add_device (w : Workcell) (device : WorkcellDevice) : Workcell :=
  { w with devices := (device.name, device) :: w.devices }

/-- Dict lookup, first match. -/
def lookupDevice : List (String × WorkcellDevice) → String → Option WorkcellDevice
  | [], _ => none
  | (k, v) :: rest, n => if n = k then some v else lookupDevice rest n

/-- Dict lookup `self.devices[n]`. -/
def Workcell.getDevice (w : Workcell) (n : String) : Option WorkcellDevice :=
  lookupDevice w.devices n

/-- Write back a mutated device under its key (Python mutates the shared
object in place; here every binding of that key is updated). -/
def setDevice (devs : List (String × WorkcellDevice)) (n : String)
    (d : WorkcellDevice) : List (String × WorkcellDevice) :=
  devs.map fun kv => if kv.1 = n then (n, d) else kv

/-- `Workcell.transfer_plate`: resolve both devices by name (an unregistered
name raises `KeyError`, modelled by `Except.error` carrying the missing key
— these lookups sit BEFORE the `try` block); then, inside the `try`, pick
from the source and place into the destination. Any error from pick/place
is caught here: a "failed" entry carrying the error is appended and `false`
is returned. On success a "success" entry is appended and `true` is
returned. The destination is re-read from the updated mapping after the
pick so that a transfer whose source and destination coincide sees the
mutated device, as the aliased Python object would. -/
def Workcell.transfer_plate (w : Workcell) (plate_id from_name to_name : String) :
    Except String (Bool × Workcell) :=
  match w.getDevice from_name with
  | none => .error from_name
  | some from_device =>
    match w.getDevice to_name with
    | none => .error to_name
    | some _ =>
      match w.robot.pick_plate from_device plate_id with
      | .error e =>
          .ok (false, { w with protocol_log := w.protocol_log ++
            [{ plate_id := plate_id, src := from_name, dst := to_name,
               status := "failed", error := some e }] })
      | .ok (r1, d1) =>
          let w1 : Workcell :=
            { w with robot := r1, devices := setDevice w.devices from_name d1 }
          match w1.getDevice to_name with
          | none => .error to_name
          | some to_device1 =>
            match w1.robot.place_plate to_device1 with
            | .error e =>
                .ok (false, { w1 with protocol_log := w1.protocol_log ++
                  [{ plate_id := plate_id, src := from_name, dst := to_name,
                     status := "failed", error := some e }] })
            | .ok (r2, d2) =>
                .ok (true,
                  { w1 with
                    robot := r2,
                    devices := setDevice w1.devices to_name d2,
                    protocol_log := w1.protocol_log ++
                      [{ plate_id := plate_id, src := from_name, dst := to_name,
                         status := "success", error := none }] })

/-- An error escaping a protocol step: either a `KeyError` from a device
lookup or a workcell error propagating out of `device.process`. -/
inductive ProtoErr where
  | keyError (missingName : String)
  | wcError (e : WorkcellError)
deriving DecidableEq, Repr

/-- One step of `run_cell_screening_protocol`'s fixed sequence: a
`transfer_plate` call (whose boolean result the runner ignores) or a
`self.devices[name].process(duration)` call. -/
inductive ProtocolStep where
  | transfer (plate_id from_name to_name : String)
  | process (dname : String) (duration : Nat)
deriving DecidableEq, Repr

/-- Execute one protocol step. A transfer's `false` result is ignored (the
runner continues); a `KeyError` from its device lookups, or any error out
of `process`, escapes the step. An escaping step has made no state change:
every raise in the source precedes any mutation. -/
def runStep (w : Workcell) : ProtocolStep → Except ProtoErr Workcell
  | .transfer pid f t =>
      match w.transfer_plate pid f t with
      | .error k => .error (.keyError k)
      | .ok (_, w1) => .ok w1
  | .process dname dur =>
      match w.getDevice dname with
      | none => .error (.keyError dname)
      | some d =>
          match d.process dur with
          | .error e => .error (.wcError e)
          | .ok d1 => .ok { w with devices := setDevice w.devices dname d1 }

/-- Run steps in order; the first escaping error aborts the remainder and
surfaces together with the state at the abort point (whose log is the
partial log the outermost handler prints). -/
def runSteps (w : Workcell) : List ProtocolStep → Workcell × Option ProtoErr
  | [] => (w, none)
  | s :: rest =>
      match runStep w s with
      | .error e => (w, some e)
      | .ok w1 => runSteps w1 rest

/-- The plate id hardcoded in `run_cell_screening_protocol`. -/
def protoPlateId : String := "CELL_CULTURE_PLATE_001"

/-- The fixed step sequence of `run_cell_screening_protocol` (steps 1–6 of
the source's printed numbering, before `return_home`). -/
def protocolSteps : List ProtocolStep :=
  [ .transfer protoPlateId "Storage" "LiquidHandler",
    .process "LiquidHandler" 3,
    .transfer protoPlateId "LiquidHandler" "Centrifuge",
    .process "Centrifuge" 2,
    .transfer protoPlateId "Centrifuge" "ThermalCycler",
    .process "ThermalCycler" 4,
    .transfer protoPlateId "ThermalCycler" "PlateReader",
    .process "PlateReader" 2,
    .transfer protoPlateId "PlateReader" "Storage" ]

/-- `Workcell.run_cell_screening_protocol`: the whole body sits in one
`try/except Exception` — the runner itself never raises. On an escaping
step error the remaining steps (including `return_home`) are skipped and
the state at the abort point is kept (its log is shown as the partial log);
otherwise `return_home` runs and the metrics are computed from the final
log. -/
def Workcell.run_cell_screening_protocol (w : Workcell) : Workcell × Option ProtoErr :=
  match runSteps w protocolSteps with
  | (w1, some e) => (w1, some e)
  | (w1, none) => ({ w1 with robot := w1.robot.return_home }, none)

/-- `len(self.protocol_log)` in the report. -/
def total_transfers (log : List TransferLogEntry) : Nat := log.length

/-- `len([l for l in self.protocol_log if l['status'] == 'success'])`. -/
def successful_transfers (log : List TransferLogEntry) : Nat :=
  (log.filter fun l => l.status = "success").length

/-- `failed_transfers = total_transfers - successful_transfers`. -/
def failed_transfers (log : List TransferLogEntry) : Nat :=
  total_transfers log - successful_transfers log

/-- `success_rate = (successful / total * 100) if total > 0 else 0`,
as an exact rational. -/
def success_rate (log : List TransferLogEntry) : ℚ :=
  if total_transfers log > 0 then
    (successful_transfers log : ℚ) / (total_transfers log : ℚ) * 100
  else 0

/-- The documented device invariant: `has_plate` agrees with `plate_id`
being present, and a plate is present exactly when the status is one of
"loaded", "processing", "complete". (A device holds at most one plate by
construction: `plate_id` is a single optional value.) -/
def WorkcellDevice.inv (d : WorkcellDevice) : Prop :=
  d.has_plate = d.plate_id.isSome ∧
  (d.has_plate = true ↔
    (d.status = "loaded" ∨ d.status = "processing" ∨ d.status = "complete"))

instance (d : WorkcellDevice) : Decidable d.inv := by
  unfold WorkcellDevice.inv; infer_instance

/-- A device as constructed by `WorkcellDevice(name, position)`:
status "idle", no plate. -/
def mkDevice (name : String) (pos : Position) : WorkcellDevice :=
  { name := name, position := pos, status := "idle",
    has_plate := false, plate_id := none }

/-- The `Storage` device as `main()` prepares it: constructed empty, then
`has_plate`/`plate_id` set directly (leaving status "idle"). -/
def storage0 : WorkcellDevice :=
  { mkDevice "Storage" ⟨100, 200, 50, "Storage"⟩ with
    has_plate := true, plate_id := some protoPlateId }

/-- The workcell exactly as `main()` assembles it before running the
protocol. -/
def mainWorkcell : Workcell :=
  (((((Workcell.init "Cell Line Screening Workcell").add_device
    storage0).add_device
    (mkDevice "LiquidHandler" ⟨400, 200, 100, "LiquidHandler"⟩)).add_device
    (mkDevice "ThermalCycler" ⟨700, 200, 80, "ThermalCycler"⟩)).add_device
    (mkDevice "PlateReader" ⟨1000, 200, 90, "PlateReader"⟩)).add_device
    (mkDevice "Centrifuge" ⟨550, 400, 75, "Centrifuge"⟩)

/-- The `main()` workcell with no initial plate anywhere: as above but
`Storage` left as constructed. -/
def noPlateWorkcell : Workcell :=
  (((((Workcell.init "Cell Line Screening Workcell").add_device
    (mkDevice "Storage" ⟨100, 200, 50, "Storage"⟩)).add_device
    (mkDevice "LiquidHandler" ⟨400, 200, 100, "LiquidHandler"⟩)).add_device
    (mkDevice "ThermalCycler" ⟨700, 200, 80, "ThermalCycler"⟩)).add_device
    (mkDevice "PlateReader" ⟨1000, 200, 90, "PlateReader"⟩)).add_device
    (mkDevice "Centrifuge" ⟨550, 400, 75, "Centrifuge"⟩)

/-- Scenario for the end-to-end failure test: Storage holds "P1" (status
"loaded"), LiquidHandler already holds "P9", robot idle at home. -/
def scenarioBusyLH : Workcell :=
  ((Workcell.init "W").add_device
    { mkDevice "Storage" ⟨100, 200, 50, "Storage"⟩ with
      has_plate := true, plate_id := some "P1", status := "loaded" }).add_device
    { mkDevice "LiquidHandler" ⟨400, 200, 100, "LiquidHandler"⟩ with
      has_plate := true, plate_id := some "P9", status := "loaded" }

/-- Scenario for the mismatched-plate-id transfer: Storage holds "P1",
LiquidHandler empty, robot idle at home. -/
def scenarioP1 : Workcell :=
  ((Workcell.init "W").add_device
    { mkDevice "Storage" ⟨100, 200, 50, "Storage"⟩ with
      has_plate := true, plate_id := some "P1", status := "loaded" }).add_device
    (mkDevice "LiquidHandler" ⟨400, 200, 100, "LiquidHandler"⟩)

/-- A loaded device for unit scenarios: holds plate "A1". -/
def deviceA : WorkcellDevice :=
  { mkDevice "DevA" ⟨1, 2, 3, "DevA"⟩ with
    has_plate := true, plate_id := some "A1", status := "loaded" }

/-- An empty device for unit scenarios. -/
def deviceB : WorkcellDevice := mkDevice "DevB" ⟨4, 5, 6, "DevB"⟩

/-- The robot state after `RobotArm.init.pick_plate deviceA "A1"`. -/
def pickedRobot : RobotArm :=
  { RobotArm.init with
    current_position := ⟨1, 2, 3, "DevA"⟩, moves_count := 1,
    has_plate := true, plate_id := some "A1" }

/-- The device state after `RobotArm.init.pick_plate deviceA "A1"`. -/
def pickedDevice : WorkcellDevice :=
  { deviceA with has_plate := false, plate_id := none, status := "idle" }

/-- A three-entry log with two successes and one failure. -/
def exampleLog : List TransferLogEntry :=
  [ { plate_id := "P1", src := "A", dst := "B", status := "success", error := none },
    { plate_id := "P1", src := "B", dst := "C", status := "success", error := none },
    { plate_id := "P1", src := "C", dst := "D", status := "failed",
      error := some (.emptyDevice "C") } ]

/-- The workcell state after the first transfer of the `main()` setup,
extracted from the transfer's own result. -/
def afterTransfer1 : Workcell :=
  match mainWorkcell.transfer_plate protoPlateId "Storage" "LiquidHandler" with
  | .ok (_, w') => w'
  | .error _ => mainWorkcell

/-- The `noPlateWorkcell` state after protocol step 1 (a failed transfer,
logged), extracted from the step runner's own result. -/
def noPlateAfterStep1 : Workcell :=
  (runSteps noPlateWorkcell
    [ProtocolStep.transfer protoPlateId "Storage" "LiquidHandler"]).1

/-! ## Helper lemmas -/

theorem lookupDevice_setDevice (devs : List (String × WorkcellDevice))
    (n m : String) (d : WorkcellDevice) :
    lookupDevice (setDevice devs n d) m =
      if m = n then (lookupDevice devs n).map (fun _ => d)
      else lookupDevice devs m := by
  induction devs with
  | nil => simp [setDevice, lookupDevice]
  | cons kv rest ih =>
    obtain ⟨k, v⟩ := kv
    by_cases hk : k = n
    · subst hk
      have hsd : setDevice ((k, v) :: rest) k d = (k, d) :: setDevice rest k d := by
        simp [setDevice]
      rw [hsd]
      simp only [lookupDevice, ih]
      by_cases hm : m = k
      · simp [hm]
      · simp [hm]
    · have hsd : setDevice ((k, v) :: rest) n d = (k, v) :: setDevice rest n d := by
        simp [setDevice, hk]
      rw [hsd]
      simp only [lookupDevice, ih]
      have hnk : ¬n = k := fun h => hk h.symm
      by_cases hm : m = k
      · subst hm
        simp [hk, hnk]
      · simp [hm, hnk]

/-- Success characterization of `pick_plate`: the robot ends at the device's
position with one more move, holding the ARGUMENT plate id; the device is
left empty and idle. -/
theorem pick_plate_ok {r : RobotArm} {d : WorkcellDevice} {pid : String}
    {r' : RobotArm} {d' : WorkcellDevice}
    (h : r.pick_plate d pid = .ok (r', d')) :
    r.has_plate = false ∧ d.has_plate = true ∧
    r' = { r with
           current_position := d.position, moves_count := r.moves_count + 1,
           has_plate := true, plate_id := some pid } ∧
    d' = { d with
           has_plate := false, plate_id := none, status := "idle" } := by
  by_cases hr : r.has_plate
  · simp [RobotArm.pick_plate, hr] at h
  · by_cases hd : d.has_plate
    · simp [RobotArm.pick_plate, hr, hd, WorkcellDevice.unload_plate,
        RobotArm.move_to] at h
      exact ⟨by simp [hr], hd, h.1.symm, h.2.symm⟩
    · simp [RobotArm.pick_plate, hr, hd] at h

/-- Success characterization of `place_plate`: the robot ends at the device's
position with one more move and an empty gripper; the device holds the
robot's previously held plate id with status "loaded". -/
theorem place_plate_ok {r : RobotArm} {d : WorkcellDevice}
    {r' : RobotArm} {d' : WorkcellDevice}
    (h : r.place_plate d = .ok (r', d')) :
    r.has_plate = true ∧ d.has_plate = false ∧
    r' = { r with
           current_position := d.position, moves_count := r.moves_count + 1,
           has_plate := false, plate_id := none } ∧
    d' = { d with
           has_plate := true, plate_id := r.plate_id, status := "loaded" } := by
  by_cases hr : r.has_plate
  · by_cases hd : d.has_plate
    · simp [RobotArm.place_plate, hr, hd] at h
    · simp [RobotArm.place_plate, hr, hd, WorkcellDevice.load_plate,
        RobotArm.move_to] at h
      exact ⟨hr, by simp [hd], h.1.symm, h.2.symm⟩
  · simp [RobotArm.place_plate, hr] at h

theorem runSteps_append (pre post : List ProtocolStep) (w : Workcell) :
    runSteps w (pre ++ post) =
      match runSteps w pre with
      | (w1, none) => runSteps w1 post
      | (w1, some e) => (w1, some e) := by
  induction pre generalizing w with
  | nil => simp [runSteps]
  | cons s rest ih =>
    simp only [List.cons_append, runSteps]
    cases runStep w s with
    | error e => rfl
    | ok w1 => exact ih w1

/-! ## Claim theorems -/

/-- C2: for every device satisfying the invariant (a plate is held iff the
status is "loaded"/"processing"/"complete", and `has_plate` agrees with
`plate_id` being present), each of load, unload and process yields a state
satisfying the invariant whether it succeeds or fails — every raise in the
source happens before any mutation, so a failing operation leaves the
original state, which satisfies the invariant by hypothesis. The device
holds at most one plate throughout since `plate_id` is a single optional
value. -/
theorem C2_device_ops_preserve_inv (d : WorkcellDevice) (h : d.inv) :
    (∀ pid d', d.load_plate (some pid) = .ok d' → d'.inv) ∧
    (∀ p d', d.unload_plate = .ok (p, d') → d'.inv) ∧
    (∀ dur d', d.process dur = .ok d' → d'.inv) ∧
    (∀ pid e, d.load_plate (some pid) = .error e → d.inv) ∧
    (∀ e, d.unload_plate = .error e → d.inv) ∧
    (∀ dur e, d.process dur = .error e → d.inv) := by
  obtain ⟨h1, h2⟩ := h
  refine ⟨?_, ?_, ?_, fun _ _ _ => ⟨h1, h2⟩, fun _ _ => ⟨h1, h2⟩,
    fun _ _ _ => ⟨h1, h2⟩⟩
  · intro pid d' hd'
    by_cases hp : d.has_plate <;> simp [WorkcellDevice.load_plate, hp] at hd'
    subst hd'
    simp [WorkcellDevice.inv]
  · intro p d' hd'
    by_cases hp : d.has_plate <;> simp [WorkcellDevice.unload_plate, hp] at hd'
    obtain ⟨-, hd'⟩ := hd'
    subst hd'
    simp [WorkcellDevice.inv]
  · intro dur d' hd'
    by_cases hp : d.has_plate <;> simp [WorkcellDevice.process, hp] at hd'
    subst hd'
    simp [WorkcellDevice.inv, hp, ← h1]

/-- C2 witness: a freshly constructed device satisfies the invariant, and
the preservation statements instantiate to it. -/
theorem C2_witness :
    (∀ pid d', deviceB.load_plate (some pid) = .ok d' → d'.inv) ∧
    (∀ p d', deviceB.unload_plate = .ok (p, d') → d'.inv) ∧
    (∀ dur d', deviceB.process dur = .ok d' → d'.inv) ∧
    (∀ pid e, deviceB.load_plate (some pid) = .error e → deviceB.inv) ∧
    (∀ e, deviceB.unload_plate = .error e → deviceB.inv) ∧
    (∀ dur e, deviceB.process dur = .error e → deviceB.inv) :=
  C2_device_ops_preserve_inv deviceB (by decide)

/-- C8: `load_plate` on a loaded device fails with the already-loaded error
carrying its name and held plate id, and `unload_plate`/`process` on an
empty device fail with the empty-device error carrying its name. Every one
of these raises happens before any mutation in the source, so the error
result carries no successor state: the device is left unchanged. -/
theorem C8_precondition_failures (d : WorkcellDevice) :
    (d.has_plate = true → ∀ pid,
      d.load_plate pid = .error (.alreadyLoaded d.name d.plate_id)) ∧
    (d.has_plate = false → d.unload_plate = .error (.emptyDevice d.name)) ∧
    (d.has_plate = false → ∀ dur,
      d.process dur = .error (.emptyDevice d.name)) := by
  refine ⟨fun h pid => ?_, fun h => ?_, fun h dur => ?_⟩ <;>
    simp [WorkcellDevice.load_plate, WorkcellDevice.unload_plate,
      WorkcellDevice.process, h]

/-- C8 witness: the failures evaluated on a loaded and an empty device. -/
theorem C8_witness :
    deviceA.load_plate (some "X") =
      .error (.alreadyLoaded deviceA.name deviceA.plate_id) ∧
    deviceB.unload_plate = .error (.emptyDevice deviceB.name) ∧
    deviceB.process 2 = .error (.emptyDevice deviceB.name) :=
  ⟨(C8_precondition_failures deviceA).1 (by decide) (some "X"),
   (C8_precondition_failures deviceB).2.1 (by decide),
   (C8_precondition_failures deviceB).2.2 (by decide) 2⟩

/-- C9: in the report metrics, the failure count is the total minus the
success count; the success rate is successes/total×100 when the log is
non-empty and 0 on the empty log (no division by zero); on a three-entry
log with two successes the rate is 200/3 %, which renders to one decimal
as 66.7. -/
theorem C9_report_metrics (log : List TransferLogEntry) :
    failed_transfers log = total_transfers log - successful_transfers log ∧
    (0 < total_transfers log →
      success_rate log =
        (successful_transfers log : ℚ) / (total_transfers log : ℚ) * 100) ∧
    success_rate [] = 0 ∧
    success_rate exampleLog = 200 / 3 ∧
    round (success_rate exampleLog * 10) = 667 := by
  have h2 : successful_transfers exampleLog = 2 := by rfl
  have h3 : total_transfers exampleLog = 3 := by rfl
  have hrate : success_rate exampleLog = 200 / 3 := by
    unfold success_rate
    rw [h2, h3]
    norm_num
  refine ⟨rfl, fun h => ?_, rfl, hrate, ?_⟩
  · simp [success_rate, h]
  · rw [hrate]
    norm_num [round_eq]

/-- C9 witness: the rate formula instantiated on the three-entry log. -/
theorem C9_witness :
    0 < total_transfers exampleLog ∧
    success_rate exampleLog =
      (successful_transfers exampleLog : ℚ) /
        (total_transfers exampleLog : ℚ) * 100 :=
  ⟨by decide, (C9_report_metrics exampleLog).2.1 (by decide)⟩

/-- C4 counterexample: the device holds "A1", yet a successful `pick_plate`
with caller-supplied expected id "B9" leaves the robot holding "B9" — not
the id the device's unload returned, refuting the claim for that value of
`expectedPlateId`. -/
theorem C4_counterexample :
    deviceA.plate_id = some "A1" ∧
    (RobotArm.init.pick_plate deviceA "B9").toOption.map
        (fun x => x.1.plate_id) = some (some "B9") ∧
    some "B9" ≠ some "A1" := by decide

/-- C4 (amended): on every successful `pick_plate(device, expectedPlateId)`
the robot moves to the device's position (move count +1), the device's
unload runs (leaving it empty and idle), and the robot's held plate is set
to the caller-supplied `expectedPlateId` — the id returned by the unload is
discarded, so the robot holds the plate the device actually held exactly
when the argument matches it. -/
theorem C4_pick_sets_argument_id (r : RobotArm) (d : WorkcellDevice)
    (pid : String) (r' : RobotArm) (d' : WorkcellDevice)
    (h : r.pick_plate d pid = .ok (r', d')) :
    r'.plate_id = some pid ∧ r'.has_plate = true ∧
    r'.current_position = d.position ∧
    r'.moves_count = r.moves_count + 1 ∧
    d'.has_plate = false ∧ d'.plate_id = none ∧ d'.status = "idle" := by
  obtain ⟨-, -, hr1, hd1⟩ := pick_plate_ok h
  subst hr1
  subst hd1
  exact ⟨rfl, rfl, rfl, rfl, rfl, rfl, rfl⟩

/-- C4 witness: the pick effect evaluated at a concrete robot and device. -/
theorem C4_witness :
    pickedRobot.plate_id = some "A1" ∧ pickedRobot.has_plate = true ∧
    pickedRobot.current_position = deviceA.position ∧
    pickedRobot.moves_count = RobotArm.init.moves_count + 1 ∧
    pickedDevice.has_plate = false ∧ pickedDevice.plate_id = none ∧
    pickedDevice.status = "idle" :=
  C4_pick_sets_argument_id RobotArm.init deviceA "A1" pickedRobot pickedDevice
    (by decide)

/-- C6: the specification requires an unregistered source or destination
name to fail with `UnknownDeviceError`, but the source performs the raw
dict lookups with no registration check; at the failing input the lookup
failure (`KeyError "Ghost"`, modelled as `Except.error "Ghost"`) escapes
`transfer_plate` instead. -/
theorem C6_unregistered_name_raises_keyerror :
    mainWorkcell.transfer_plate "P1" "Ghost" "Storage" = .error "Ghost" := by
  decide

/-- C10: when the source or destination name is unregistered, the lookup
failure escapes `transfer_plate` uncaught — the lookups precede its
try/except boundary — and the workcell state, its protocol log included,
is unchanged: running the transfer as a protocol step returns the original
state together with the escaping `KeyError`. -/
theorem C10_unregistered_lookup_propagates (w : Workcell) (pid f t : String)
    (h : w.getDevice f = none ∨ w.getDevice t = none) :
    ∃ n, w.transfer_plate pid f t = .error n ∧
      runSteps w [ProtocolStep.transfer pid f t] = (w, some (.keyError n)) := by
  cases hf : w.getDevice f with
  | none =>
      refine ⟨f, ?_, ?_⟩ <;>
        simp [runSteps, runStep, Workcell.transfer_plate, hf]
  | some df =>
      have ht : w.getDevice t = none := by
        rcases h with h | h
        · exact absurd (hf.symm.trans h) (by simp)
        · exact h
      refine ⟨t, ?_, ?_⟩ <;>
        simp [runSteps, runStep, Workcell.transfer_plate, hf, ht]

/-- C10 witness: the propagation evaluated on the `main()` workcell with an
unregistered source name. -/
theorem C10_witness :
    ∃ n, mainWorkcell.transfer_plate "P1" "Ghost" "LiquidHandler" = .error n ∧
      runSteps mainWorkcell [ProtocolStep.transfer "P1" "Ghost" "LiquidHandler"] =
        (mainWorkcell, some (.keyError n)) :=
  C10_unregistered_lookup_propagates mainWorkcell "P1" "Ghost" "LiquidHandler"
    (Or.inl (by decide))

/-- C5 counterexample: in the stated scenario the transfer does fail with
the already-loaded error, but afterwards Storage does NOT still hold "P1":
the pick step had already succeeded, so Storage is empty (`has_plate` is
false and `plate_id` cleared), refuting the claim's "Storage still holds
P1". -/
theorem C5_counterexample :
    (scenarioBusyLH.getDevice "Storage").map (fun d => d.plate_id) =
      some (some "P1") ∧
    (scenarioBusyLH.transfer_plate "P1" "Storage" "LiquidHandler").toOption.map
      (fun x => (x.1, (x.2.getDevice "Storage").map
        (fun d => (d.has_plate, d.plate_id)))) =
      some (false, some (false, none)) := by decide

/-- C5 (amended): with Storage holding "P1", the robot empty, and
LiquidHandler already holding a plate ("P9"), the call fails with the
already-loaded error surfaced as exactly one Failed log entry and returns
`false`; afterwards Storage no longer holds "P1" — the plate is held in the
gripper (`robot.plate_id = "P1"`) with no rollback attempted — and
LiquidHandler keeps "P9". -/
theorem C5_failed_transfer_no_rollback :
    (scenarioBusyLH.transfer_plate "P1" "Storage" "LiquidHandler").toOption.map
      (fun x => (x.1, x.2.protocol_log)) =
      some (false,
        [{ plate_id := "P1", src := "Storage", dst := "LiquidHandler",
           status := "failed",
           error := some (.alreadyLoaded "LiquidHandler" (some "P9")) }]) ∧
    (scenarioBusyLH.transfer_plate "P1" "Storage" "LiquidHandler").toOption.map
      (fun x => ((x.2.getDevice "Storage").map
          (fun d => (d.has_plate, d.plate_id)),
        (x.2.getDevice "LiquidHandler").map (fun d => d.plate_id),
        x.2.robot.has_plate, x.2.robot.plate_id)) =
      some (some (false, none), some (some "P9"), true, some "P1") :=
  ⟨by decide, by decide⟩

/-- C1 counterexample: Storage holds "P1"; calling `transfer_plate` with
plate id argument "P2" SUCCEEDS, and afterwards the destination holds "P2"
— not the plate "P1" that the source held before the call (which is no
longer tracked anywhere): the claim fails for successful calls whose plate
id argument differs from the plate the source held. -/
theorem C1_counterexample :
    (scenarioP1.getDevice "Storage").map (fun d => d.plate_id) =
      some (some "P1") ∧
    (scenarioP1.transfer_plate "P2" "Storage" "LiquidHandler").toOption.map
      (fun x => (x.1, (x.2.getDevice "LiquidHandler").map (fun d => d.plate_id))) =
      some (true, some (some "P2")) ∧
    some "P2" ≠ some "P1" := by decide

/-- C1 (amended): for every successful `transfer_plate(plateId, src, dst)`
on registered devices with `src ≠ dst` whose `plateId` argument equals the
plate the source held, afterwards the destination holds exactly that plate,
the source holds none, the robot holds none, and every other device is
untouched — no plate id is duplicated or lost. (The extra hypotheses are
forced: the code transfers the ARGUMENT id rather than the id the source
held, and a self-transfer leaves the plate on the source.) -/
theorem C1_successful_transfer_moves_plate
    (w w' : Workcell) (pid f t : String) (df : WorkcellDevice)
    (hf : w.getDevice f = some df) (hheld : df.plate_id = some pid)
    (hne : f ≠ t)
    (hok : w.transfer_plate pid f t = .ok (true, w')) :
    (∃ dt', w'.getDevice t = some dt' ∧ dt'.has_plate = true ∧
        dt'.plate_id = df.plate_id) ∧
    (∃ df', w'.getDevice f = some df' ∧ df'.has_plate = false ∧
        df'.plate_id = none) ∧
    w'.robot.has_plate = false ∧ w'.robot.plate_id = none ∧
    (∀ n, n ≠ f → n ≠ t → w'.getDevice n = w.getDevice n) := by
  unfold Workcell.transfer_plate at hok
  simp only [hf] at hok
  cases ht : w.getDevice t with
  | none => simp [ht] at hok
  | some dt =>
  simp only [ht] at hok
  cases hpick : w.robot.pick_plate df pid with
  | error e => simp [hpick] at hok
  | ok rd =>
  obtain ⟨r1, d1⟩ := rd
  simp only [hpick] at hok
  have htf : ¬t = f := fun h => hne h.symm
  have hlf : lookupDevice w.devices f = some df := hf
  have hlt : lookupDevice w.devices t = some dt := ht
  have hget2 : Workcell.getDevice
      { w with robot := r1, devices := setDevice w.devices f d1 } t =
      some dt := by
    simp only [Workcell.getDevice, lookupDevice_setDevice, if_neg htf]
    exact hlt
  simp only [hget2] at hok
  cases hplace : r1.place_plate dt with
  | error e => simp [hplace] at hok
  | ok rd2 =>
  obtain ⟨r2, d2⟩ := rd2
  simp only [hplace] at hok
  simp only [Except.ok.injEq, Prod.mk.injEq, true_and] at hok
  obtain ⟨hr0, hd0, hr1e, hd1e⟩ := pick_plate_ok hpick
  obtain ⟨hr1p, hdt0, hr2e, hd2e⟩ := place_plate_ok hplace
  subst hok
  refine ⟨⟨d2, ?_, ?_, ?_⟩, ⟨d1, ?_, ?_, ?_⟩, ?_, ?_, ?_⟩
  · simp [Workcell.getDevice, lookupDevice_setDevice, htf, hlt]
  · rw [hd2e]
  · rw [hd2e, hr1e, hheld]
  · simp [Workcell.getDevice, lookupDevice_setDevice, hne, hlf]
  · rw [hd1e]
  · rw [hd1e]
  · rw [hr2e]
  · rw [hr2e]
  · intro n hnf hnt
    simp only [Workcell.getDevice, lookupDevice_setDevice, if_neg hnt,
      if_neg hnf]

/-- C1 witness: the amended statement instantiated on the `main()` workcell
and its first protocol transfer. -/
theorem C1_witness :
    (∃ dt', afterTransfer1.getDevice "LiquidHandler" = some dt' ∧
        dt'.has_plate = true ∧ dt'.plate_id = storage0.plate_id) ∧
    (∃ df', afterTransfer1.getDevice "Storage" = some df' ∧
        df'.has_plate = false ∧ df'.plate_id = none) ∧
    afterTransfer1.robot.has_plate = false ∧
    afterTransfer1.robot.plate_id = none ∧
    (∀ n, n ≠ "Storage" → n ≠ "LiquidHandler" →
      afterTransfer1.getDevice n = mainWorkcell.getDevice n) :=
  C1_successful_transfer_moves_plate mainWorkcell afterTransfer1 protoPlateId
    "Storage" "LiquidHandler" storage0 (by decide) (by decide) (by decide)
    (by decide)

/-- C3: for every `transfer_plate` call whose source and destination names
are registered, no exception propagates: the call returns a boolean, and
exactly one entry is appended to the end of the log (so entries appear in
call order); the entry records the plate id and the two device names, and
is a "success" entry with no error detail when both steps succeed, or a
"failed" entry carrying the caught error detail when pick or place fails. -/
theorem C3_transfer_boundary (w : Workcell) (pid f t : String)
    (df dt : WorkcellDevice)
    (hf : w.getDevice f = some df) (ht : w.getDevice t = some dt) :
    ∃ b w' en, w.transfer_plate pid f t = .ok (b, w') ∧
      w'.protocol_log = w.protocol_log ++ [en] ∧
      en.plate_id = pid ∧ en.src = f ∧ en.dst = t ∧
      ((b = true ∧ en.status = "success" ∧ en.error = none) ∨
       (b = false ∧ en.status = "failed" ∧ en.error.isSome = true)) := by
  unfold Workcell.transfer_plate
  simp only [hf, ht]
  cases hpick : w.robot.pick_plate df pid with
  | error e =>
      exact ⟨false, _, _, rfl, rfl, rfl, rfl, rfl, Or.inr ⟨rfl, rfl, rfl⟩⟩
  | ok rd =>
  obtain ⟨r1, d1⟩ := rd
  have hget2 : Workcell.getDevice
      { w with robot := r1, devices := setDevice w.devices f d1 } t =
      some (if t = f then d1 else dt) := by
    have hlf : lookupDevice w.devices f = some df := hf
    have hlt : lookupDevice w.devices t = some dt := ht
    simp only [Workcell.getDevice, lookupDevice_setDevice]
    by_cases htf : t = f
    · simp [htf, hlf]
    · simp [htf, hlt]
  simp only [hget2]
  cases hplace : r1.place_plate (if t = f then d1 else dt) with
  | error e =>
      exact ⟨false, _, _, rfl, rfl, rfl, rfl, rfl, Or.inr ⟨rfl, rfl, rfl⟩⟩
  | ok rd2 =>
  obtain ⟨r2, d2⟩ := rd2
  exact ⟨true, _, _, rfl, rfl, rfl, rfl, rfl, Or.inl ⟨rfl, rfl, rfl⟩⟩

/-- C3 witness: the boundary behavior instantiated on the `main()` workcell
and its first transfer. -/
theorem C3_witness :
    ∃ b w' en,
      mainWorkcell.transfer_plate protoPlateId "Storage" "LiquidHandler" =
        .ok (b, w') ∧
      w'.protocol_log = mainWorkcell.protocol_log ++ [en] ∧
      en.plate_id = protoPlateId ∧ en.src = "Storage" ∧
      en.dst = "LiquidHandler" ∧
      ((b = true ∧ en.status = "success" ∧ en.error = none) ∨
       (b = false ∧ en.status = "failed" ∧ en.error.isSome = true)) :=
  C3_transfer_boundary mainWorkcell protoPlateId "Storage" "LiquidHandler"
    storage0 (mkDevice "LiquidHandler" ⟨400, 200, 100, "LiquidHandler"⟩)
    (by decide) (by decide)

/-- C7: in `run_cell_screening_protocol`, if the `process` call of some step
of the fixed sequence errors, the error is not caught per-step: the run
ends in the state reached just before the failing step — no subsequent
transfer or process step executes and no further log entry is appended —
and the error surfaces only at the runner's outermost handler, paired with
that partial state whose log it shows. -/
theorem C7_process_error_aborts_protocol
    (w w1 : Workcell) (pre post : List ProtocolStep) (dname : String)
    (dur : Nat) (e : ProtoErr)
    (hsteps : protocolSteps = pre ++ ProtocolStep.process dname dur :: post)
    (hpre : runSteps w pre = (w1, none))
    (herr : runStep w1 (ProtocolStep.process dname dur) = .error e) :
    w.run_cell_screening_protocol = (w1, some e) ∧
    (w.run_cell_screening_protocol).1.protocol_log = w1.protocol_log := by
  have hrun : runSteps w protocolSteps = (w1, some e) := by
    rw [hsteps, runSteps_append, hpre]
    simp only [runSteps, herr]
  have h : w.run_cell_screening_protocol = (w1, some e) := by
    unfold Workcell.run_cell_screening_protocol
    rw [hrun]
  exact ⟨h, by rw [h]⟩

/-- C7 witness: on the `main()` workcell with no initial plate, step 1's
transfer fails (and is logged), then step 2's `process` on the empty
LiquidHandler raises; the whole protocol ends there with the one-entry
partial log. -/
theorem C7_witness :
    noPlateWorkcell.run_cell_screening_protocol =
      (noPlateAfterStep1, some (.wcError (.emptyDevice "LiquidHandler"))) ∧
    (noPlateWorkcell.run_cell_screening_protocol).1.protocol_log =
      noPlateAfterStep1.protocol_log :=
  C7_process_error_aborts_protocol noPlateWorkcell noPlateAfterStep1
    [ProtocolStep.transfer protoPlateId "Storage" "LiquidHandler"]
    [ ProtocolStep.transfer protoPlateId "LiquidHandler" "Centrifuge",
      ProtocolStep.process "Centrifuge" 2,
      ProtocolStep.transfer protoPlateId "Centrifuge" "ThermalCycler",
      ProtocolStep.process "ThermalCycler" 4,
      ProtocolStep.transfer protoPlateId "ThermalCycler" "PlateReader",
      ProtocolStep.process "PlateReader" 2,
      ProtocolStep.transfer protoPlateId "PlateReader" "Storage" ]
    "LiquidHandler" 3 (.wcError (.emptyDevice "LiquidHandler"))
    (by rfl) (by decide) (by decide)
